import Mathlib

/-!
Verification development for the `wirekvs` Rust client library
(`src/lib.rs`, `src/main.rs`).

The library wraps a hosted key-value store: a `WireKVSDatabase` handle binds
a database id and access key to one websocket connection (opened during
construction) and one in-process broadcast channel of capacity 100
(`tokio::sync::broadcast`), and exposes single-shot CRUD calls over HTTP
(`reqwest`).  A `WireKVS` client handle performs administrative calls.

The shallow embedding below follows `src/lib.rs` line by line.  External
primitives the source calls into are modelled from their documented
semantics:

* `tokio::sync::broadcast` — a bounded single-log broadcast channel.
  `send` appends to the log when at least one receiver is active (with no
  active receiver the value is dropped and an error is returned); a receiver
  holds a position into the log; `recv` returns the value at the position,
  or `Lagged n` (jumping to the oldest retained value) when the position has
  been overwritten, or `Closed` once all senders are dropped and the log is
  drained, or suspends (`pending`) when no value is available.
* `urlencoding::encode` — percent-encodes every byte of the UTF-8 encoding
  of the input except ASCII alphanumerics and `-`, `.`, `_`, `~`, using
  uppercase hex digits.
* `reqwest` — `send()` fails only on network/protocol-level errors; an HTTP
  response with any status code (including 4xx/5xx) is a success of
  `send()`.  `.json()` fails exactly when the response body does not decode
  as a JSON document.
-/

/-- `serde_json::Value`: an arbitrary JSON document. -/
inductive Json where
  | null
  | bool (b : Bool)
  | num (n : Int)
  | str (s : String)
  | arr (xs : List Json)
  | obj (fields : List (String × Json))

/- ### The broadcast channel (`tokio::sync::broadcast`)

State of one channel, generic in the message type (the source instantiates
it at `Value`).  `log` is the sequence of all values ever accepted by
`send`, in send order; only the last `capacity` entries are retained for
delivery.  `receivers` counts the active `Receiver` halves; `closed` records
that every `Sender` half has been dropped. -/
structure Broadcast (α : Type) where
  capacity : Nat
  log : List α
  receivers : Nat
  closed : Bool

/-- `broadcast::channel(capacity)` returns a sender and one initial
receiver; the source immediately drops that receiver
(`let (tx, _) = broadcast::channel(100)`), so the channel state after the
construction line has no active receiver. -/
def Broadcast.channel (α : Type) (capacity : Nat) : Broadcast α :=
  { capacity := capacity, log := [], receivers := 0, closed := false }

/-- `Sender::subscribe`: a new receiver positioned at the current head of
the stream (it sees only values sent after this call).  Returns the new
channel state and the receiver's position. -/
def Broadcast.subscribe {α : Type} (b : Broadcast α) : Broadcast α × Nat :=
  ({ b with receivers := b.receivers + 1 }, b.log.length)

/-- `Sender::send`: never blocks.  With no active receiver the value is
dropped and `Err(SendError(v))` is returned (second component `false`);
otherwise the value is appended to the stream, overwriting the oldest
retained entry when the buffer is full. -/
def Broadcast.send {α : Type} (b : Broadcast α) (v : α) : Broadcast α × Bool :=
  if b.receivers = 0 then (b, false)
  else ({ b with log := b.log ++ [v] }, true)

/-- Sequence of `send` calls. -/
def Broadcast.sendAll {α : Type} (b : Broadcast α) (vs : List α) : Broadcast α :=
  vs.foldl (fun s v => (s.send v).1) b

/-- Index of the oldest value still retained in the buffer (the last
`capacity` entries of the log are retained). -/
def Broadcast.oldest {α : Type} (b : Broadcast α) : Nat :=
  b.log.length - b.capacity

/-- Outcome of one `Receiver::recv().await`. -/
inductive RecvResult (α : Type) where
  | event (v : α)
  | lagged (n : Nat)
  | closed
  | pending

/-- `Receiver::recv` for a receiver at position `pos`: if the position has
been overwritten, `Lagged n` with `n` the number of skipped values, moving
the receiver to the oldest retained value; otherwise the value at `pos`;
at the head of the stream, `Closed` when every sender has been dropped,
else the call suspends (`pending`). -/
def Broadcast.recv {α : Type} (b : Broadcast α) (pos : Nat) : RecvResult α × Nat :=
  if pos < b.oldest then (.lagged (b.oldest - pos), b.oldest)
  else if h : pos < b.log.length then (.event (b.log.get ⟨pos, h⟩), pos + 1)
  else if b.closed then (.closed, pos)
  else (.pending, pos)

/-- Repeated `recv` from position `pos` until the call would suspend, the
channel reports closure, or `fuel` runs out; collects the results in
order (the `closed` signal included, as the last element). -/
def Broadcast.readAll {α : Type} (fuel : Nat) (b : Broadcast α) (pos : Nat) :
    List (RecvResult α) :=
  match fuel with
  | 0 => []
  | fuel + 1 =>
    match b.recv pos with
    | (.pending, _) => []
    | (.closed, _) => [.closed]
    | (.lagged n, pos2) => .lagged n :: Broadcast.readAll fuel b pos2
    | (.event v, pos2) => .event v :: Broadcast.readAll fuel b pos2

/-- The payload of a delivered value; `none` for lag, closure and
suspension outcomes. -/
def RecvResult.eventOf {α : Type} : RecvResult α → Option α
  | .event v => some v
  | .lagged _ => none
  | .closed => none
  | .pending => none

/-- The events a subscriber at position `pos` observes when it drains the
channel (reads until its next `recv` would suspend or reports closure).
`log.length + 1` recv steps always suffice for a full drain. -/
def Broadcast.observedFrom {α : Type} (b : Broadcast α) (pos : Nat) : List α :=
  (Broadcast.readAll (b.log.length + 1) b pos).filterMap RecvResult.eventOf

/- ### Percent-encoding (`urlencoding::encode`) -/

/-- Bytes `urlencoding::encode` leaves unescaped: ASCII alphanumerics and
`-`, `.`, `_`, `~`. -/
def isUnreservedByte (b : Nat) : Bool :=
  (65 ≤ b && b ≤ 90) || (97 ≤ b && b ≤ 122) || (48 ≤ b && b ≤ 57) ||
  b == 45 || b == 46 || b == 95 || b == 126

/-- Uppercase hexadecimal digit for `n < 16`. -/
def hexDigit (n : Nat) : Char :=
  if n < 10 then Char.ofNat (48 + n) else Char.ofNat (55 + n)

/-- `%XY` escape of one byte, uppercase hex. -/
def escapeByte (b : Nat) : List Char :=
  ['%', hexDigit (b / 16), hexDigit (b % 16)]

/-- UTF-8 encoding of one character, as a list of byte values. -/
def utf8Bytes (c : Char) : List Nat :=
  let n := c.toNat
  if n < 0x80 then [n]
  else if n < 0x800 then [0xC0 + n / 64, 0x80 + n % 64]
  else if n < 0x10000 then [0xE0 + n / 4096, 0x80 + (n / 64) % 64, 0x80 + n % 64]
  else [0xF0 + n / 262144, 0x80 + (n / 4096) % 64, 0x80 + (n / 64) % 64, 0x80 + n % 64]

/-- Encoding of one character: kept verbatim when it is an unreserved ASCII
byte, otherwise every byte of its UTF-8 encoding is `%XY`-escaped. -/
def percentEncodeChar (c : Char) : List Char :=
  if isUnreservedByte c.toNat then [c]
  else ((utf8Bytes c).map escapeByte).flatten

/-- `urlencoding::encode`: percent-encode a string byte-wise over its UTF-8
encoding (per-character encoding coincides with byte-wise encoding because
every byte of a multi-byte character is escaped). -/
def percentEncode (s : String) : String :=
  ⟨(s.data.map percentEncodeChar).flatten⟩

/- ### The websocket handle and database handle -/

/-- An established `WebSocketStream` (`tokio_tungstenite`): the model keeps
only the URL the stream was opened against. -/
structure WsStream where
  url : String
deriving DecidableEq, Repr

/-- Outcome of `connect_async` on a URL: an established stream, or a
DNS/TLS/handshake/credential failure with its reason. -/
inductive HandshakeResult where
  | ok (s : WsStream)
  | err (reason : String)
deriving DecidableEq, Repr

/-- Result of running Rust code that can panic: either a value or a panic
with the panic message. -/
inductive PanicOr (α : Type) where
  | ok (a : α)
  | panicked (msg : String)
deriving DecidableEq, Repr

/-- `const API_BASE_URL`. -/
def API_BASE_URL : String := "https://kvs.wireway.ch/v2"

/-- `struct WireKVSDatabase` (src/lib.rs lines 11–17). -/
structure WireKVSDatabase where
  id : String
  access_key : String
  ws : Option WsStream
  is_connected : Bool
  tx : Broadcast Json

/-- The `ws_url` string `setup_websocket` formats (src/lib.rs lines 40–44):
`format!("wss://kvs.wireway.ch/events/{}?accessKey={}", self.id,
urlencoding::encode(&self.access_key))`. -/
def setup_ws_url (id access_key : String) : String :=
  "wss://kvs.wireway.ch/events/" ++ id ++ "?accessKey=" ++ percentEncode access_key

/-- `WireKVSDatabase::setup_websocket` (src/lib.rs lines 39–50): builds the
event URL, connects, and on success stores the stream and sets
`is_connected`; `connect_async(...).expect("Failed to connect")` panics on
any handshake failure.  `connect` stands for the network environment: the
outcome of `connect_async` on the given URL. -/
def WireKVSDatabase.setup_websocket (db : WireKVSDatabase)
    (connect : String → HandshakeResult) : PanicOr WireKVSDatabase :=
  match connect (setup_ws_url db.id db.access_key) with
  | .ok s => .ok { db with ws := some s, is_connected := true }
  | .err _ => .panicked "Failed to connect"

/-- `WireKVSDatabase::new` (src/lib.rs lines 26–37): creates the broadcast
channel of capacity 100 (dropping the initial receiver), builds the handle
with `ws := none` and `is_connected := false`, and runs `setup_websocket`
before returning. -/
def WireKVSDatabase.new (id access_key : String)
    (connect : String → HandshakeResult) : PanicOr WireKVSDatabase :=
  let tx := Broadcast.channel Json 100
  let db : WireKVSDatabase :=
    { id := id, access_key := access_key, ws := none, is_connected := false, tx := tx }
  db.setup_websocket connect

/-- `WireKVSDatabase::subscribe` (src/lib.rs lines 134–136): delegates to
`self.tx.subscribe()`. -/
def WireKVSDatabase.subscribe (db : WireKVSDatabase) : Broadcast Json × Nat :=
  db.tx.subscribe

/- ### HTTP layer (`reqwest`) -/

/-- A body as `reqwest`'s `.json::<Value>()` sees it: a valid JSON document,
or malformed content on which deserialization fails. -/
inductive RespBody where
  | json (v : Json)
  | malformed (raw : String)

/-- What one executed HTTP request produces: a network/protocol-level
failure (on which `send()` returns `Err`), or a response with a status code
and a body (`send()` returns `Ok` for every status, 4xx/5xx included). -/
inductive HttpOutcome where
  | netErr (reason : String)
  | resp (status : Nat) (body : RespBody)

/-- `reqwest::Error`: a network-level send failure or a body-decode
failure. -/
inductive ReqError where
  | network (reason : String)
  | decode (raw : String)
deriving DecidableEq, Repr

/-- An HTTP request as the source builds it: method, URL, headers, and an
optional JSON body (set by `.json(&value)`). -/
structure HttpRequest where
  method : String
  url : String
  headers : List (String × String)
  body : Option Json

/-- `resp.json().await`: succeeds with the decoded document exactly when
the body is valid JSON; the status code is not inspected. -/
def decodeJsonBody (o : HttpOutcome) : Except ReqError Json :=
  match o with
  | .netErr r => .error (.network r)
  | .resp _ (.json v) => .ok v
  | .resp _ (.malformed raw) => .error (.decode raw)

/-- `send()` alone, discarding the response (`set`/`delete` pattern): the
status code and body are not inspected. -/
def sendOnly (o : HttpOutcome) : Except ReqError Unit :=
  match o with
  | .netErr r => .error (.network r)
  | .resp _ _ => .ok ()

/-- Request built by `WireKVSDatabase::get_all_entries`
(src/lib.rs lines 59–69): `GET {base}/database/{id}` with
`Authorization: access_key`. -/
def WireKVSDatabase.get_all_entries_request (db : WireKVSDatabase) : HttpRequest :=
  { method := "GET", url := API_BASE_URL ++ "/database/" ++ db.id,
    headers := [("Authorization", db.access_key)], body := none }

/-- `WireKVSDatabase::get_all_entries`: issues its one request through the
executor and decodes the JSON body. -/
def WireKVSDatabase.get_all_entries (db : WireKVSDatabase)
    (exec : HttpRequest → HttpOutcome) : Except ReqError Json :=
  decodeJsonBody (exec db.get_all_entries_request)

/-- Request built by `WireKVSDatabase::get` (src/lib.rs lines 78–88):
`GET {base}/database/{id}/{key}` with `Authorization: access_key`. -/
def WireKVSDatabase.get_request (db : WireKVSDatabase) (key : String) : HttpRequest :=
  { method := "GET", url := API_BASE_URL ++ "/database/" ++ db.id ++ "/" ++ key,
    headers := [("Authorization", db.access_key)], body := none }

/-- `WireKVSDatabase::get`: issues its one request and decodes the JSON
body. -/
def WireKVSDatabase.get (db : WireKVSDatabase) (key : String)
    (exec : HttpRequest → HttpOutcome) : Except ReqError Json :=
  decodeJsonBody (exec (db.get_request key))

/-- Request built by `WireKVSDatabase::set` (src/lib.rs lines 96–105):
`POST {base}/database/{id}/{key}` with `Authorization: access_key` and the
value as JSON body. -/
def WireKVSDatabase.set_request (db : WireKVSDatabase) (key : String)
    (value : Json) : HttpRequest :=
  { method := "POST", url := API_BASE_URL ++ "/database/" ++ db.id ++ "/" ++ key,
    headers := [("Authorization", db.access_key)], body := some value }

/-- `WireKVSDatabase::set`: issues its one request; the response (status
and body alike) is discarded and `Ok(())` is returned. -/
def WireKVSDatabase.set (db : WireKVSDatabase) (key : String) (value : Json)
    (exec : HttpRequest → HttpOutcome) : Except ReqError Unit :=
  sendOnly (exec (db.set_request key value))

/-- Request built by `WireKVSDatabase::delete` (src/lib.rs lines 113–121):
`DELETE {base}/database/{id}/{key}` with `Authorization: access_key`. -/
def WireKVSDatabase.delete_request (db : WireKVSDatabase) (key : String) : HttpRequest :=
  { method := "DELETE", url := API_BASE_URL ++ "/database/" ++ db.id ++ "/" ++ key,
    headers := [("Authorization", db.access_key)], body := none }

/-- `WireKVSDatabase::delete`: issues its one request; the response is
discarded and `Ok(())` is returned. -/
def WireKVSDatabase.delete (db : WireKVSDatabase) (key : String)
    (exec : HttpRequest → HttpOutcome) : Except ReqError Unit :=
  sendOnly (exec (db.delete_request key))

/- ### The client handle (`WireKVS`) -/

/-- `struct WireKVS` (src/lib.rs lines 139–141). -/
structure WireKVS where
  token : String
deriving DecidableEq, Repr

/-- Configuration flag lookup: `config.get(k).unwrap_or(&false)` on the
`HashMap<String, bool>`, modelled over an association list. -/
def configFlag (config : List (String × Bool)) (k : String) : Bool :=
  (config.lookup k).getD false

/-- Request built by `WireKVS::create_database` (src/lib.rs lines 181–198):
`POST {base}/database` with `Authorization: token` and a JSON body of the
name plus the four visibility flags, each defaulted to `false` when absent
from the configuration map. -/
def WireKVS.create_database_request (c : WireKVS) (name : String)
    (config : List (String × Bool)) : HttpRequest :=
  { method := "POST", url := API_BASE_URL ++ "/database",
    headers := [("Authorization", c.token)],
    body := some (.obj
      [("name", .str name),
       ("allowPublicWrites", .bool (configFlag config "allowPublicWrites")),
       ("allowPublicReads", .bool (configFlag config "allowPublicReads")),
       ("allowPublicModifications", .bool (configFlag config "allowPublicModifications")),
       ("allowSpecificPublicReads", .bool (configFlag config "allowSpecificPublicReads"))]) }

/-- `WireKVS::create_database`: issues its one request and decodes the JSON
body of the response. -/
def WireKVS.create_database (c : WireKVS) (name : String)
    (config : List (String × Bool)) (exec : HttpRequest → HttpOutcome) :
    Except ReqError Json :=
  decodeJsonBody (exec (c.create_database_request name config))

/- ### Handle lifecycle -/

/-- The operations the library can perform on a live handle, plus the
arrival of a frame on the stored websocket stream.  These are all the ways
the outside world interacts with a constructed `WireKVSDatabase`. -/
inductive HandleOp where
  | subscribe
  | get (key : String)
  | get_all_entries
  | set (key : String) (value : Json)
  | delete (key : String)
  | wsFrameArrives (frame : Json)

/-- Effect of one operation on the handle's broadcast channel, read off the
source: `subscribe` calls `self.tx.subscribe()`; the CRUD methods never
touch `tx`; and no code in the library ever reads from `self.ws` after
`setup_websocket` returns — there is no receive loop — so a frame arriving
on the websocket triggers no `tx.send` (nor any other channel operation). -/
def hubEffect (op : HandleOp) (b : Broadcast Json) : Broadcast Json :=
  match op with
  | .subscribe => b.subscribe.1
  | .wsFrameArrives _ => b
  | _ => b

/-- Channel state after a sequence of operations on the handle. -/
def hubAfter (b : Broadcast Json) (ops : List HandleOp) : Broadcast Json :=
  ops.foldl (fun s op => hubEffect op s) b

/-- What dropping a `WireKVSDatabase` releases (Rust `Drop` glue): the
owned `tx` is the channel's only `Sender`, so the channel closes; the owned
`ws` stream, when present, is dropped, which releases the transport
connection. -/
structure DropEffect where
  hub : Broadcast Json
  releasedWs : Option WsStream

/-- Dropping the handle: every field is dropped; the broadcast channel
loses its only sender and closes, and the stored stream is released. -/
def WireKVSDatabase.dropHandle (db : WireKVSDatabase) : DropEffect :=
  { hub := { db.tx with closed := true }, releasedWs := db.ws }

/- ### Lemmas about the broadcast channel model -/

theorem Broadcast.oldest_le_length {α : Type} (b : Broadcast α) :
    b.oldest ≤ b.log.length :=
  Nat.sub_le _ _

theorem Broadcast.recv_lagged_eq {α : Type} (b : Broadcast α) (pos : Nat)
    (h : pos < b.oldest) :
    b.recv pos = (.lagged (b.oldest - pos), b.oldest) := by
  simp [Broadcast.recv, h]

theorem Broadcast.recv_event_eq {α : Type} (b : Broadcast α) (pos : Nat)
    (h1 : b.oldest ≤ pos) (h2 : pos < b.log.length) :
    b.recv pos = (.event (b.log.get ⟨pos, h2⟩), pos + 1) := by
  simp [Broadcast.recv, Nat.not_lt.mpr h1, h2]

theorem Broadcast.recv_closed_eq {α : Type} (b : Broadcast α) (pos : Nat)
    (h1 : b.log.length ≤ pos) (h2 : b.closed = true) :
    b.recv pos = (.closed, pos) := by
  have ho : ¬ pos < b.oldest := Nat.not_lt.mpr (Nat.le_trans (b.oldest_le_length) h1)
  simp [Broadcast.recv, ho, Nat.not_lt.mpr h1, h2]

theorem Broadcast.recv_pending_eq {α : Type} (b : Broadcast α) (pos : Nat)
    (h1 : b.log.length ≤ pos) (h2 : b.closed = false) :
    b.recv pos = (.pending, pos) := by
  have ho : ¬ pos < b.oldest := Nat.not_lt.mpr (Nat.le_trans (b.oldest_le_length) h1)
  simp [Broadcast.recv, ho, Nat.not_lt.mpr h1, h2]

theorem Broadcast.readAll_no_lag {α : Type} (b : Broadcast α) :
    ∀ (fuel pos : Nat), b.oldest ≤ pos → b.log.length - pos < fuel →
    Broadcast.readAll fuel b pos =
      (b.log.drop pos).map RecvResult.event
        ++ (if b.closed then [RecvResult.closed] else [])
  | 0, _, _, hf => absurd hf (Nat.not_lt_zero _)
  | fuel + 1, pos, h1, hf => by
    by_cases hlt : pos < b.log.length
    · rw [List.drop_eq_getElem_cons hlt]
      simp only [Broadcast.readAll, Broadcast.recv_event_eq b pos h1 hlt, List.map_cons,
        List.cons_append]
      rw [Broadcast.readAll_no_lag b fuel (pos + 1) (Nat.le_succ_of_le h1) (by omega)]
      rfl
    · have hge : b.log.length ≤ pos := Nat.not_lt.mp hlt
      rw [List.drop_eq_nil_of_le hge]
      cases hc : b.closed
      · simp only [Broadcast.readAll, Broadcast.recv_pending_eq b pos hge hc]
        simp
      · simp only [Broadcast.readAll, Broadcast.recv_closed_eq b pos hge hc]
        simp

/-- Full characterization of a drain: an optional single lag report, then the
retained part of the log from the reader's position on, then the closure
signal when every sender is gone. -/
theorem Broadcast.readAll_full {α : Type} (b : Broadcast α) (pos : Nat) :
    Broadcast.readAll (b.log.length + 1) b pos =
      (if pos < b.oldest then [RecvResult.lagged (b.oldest - pos)] else [])
        ++ (b.log.drop (max pos b.oldest)).map RecvResult.event
        ++ (if b.closed then [RecvResult.closed] else []) := by
  by_cases h : pos < b.oldest
  · have hmax : max pos b.oldest = b.oldest := Nat.max_eq_right (Nat.le_of_lt h)
    have hpos : 0 < b.oldest := Nat.lt_of_le_of_lt (Nat.zero_le _) h
    have hfuel : b.log.length - b.oldest < b.log.length := by
      have := b.oldest_le_length
      omega
    simp only [Broadcast.readAll, Broadcast.recv_lagged_eq b pos h, hmax, if_pos h]
    rw [Broadcast.readAll_no_lag b b.log.length b.oldest (Nat.le_refl _) hfuel]
    rfl
  · have hmax : max pos b.oldest = pos := Nat.max_eq_left (Nat.not_lt.mp h)
    rw [Broadcast.readAll_no_lag b (b.log.length + 1) pos (Nat.not_lt.mp h)
      (by omega), hmax, if_neg h, List.nil_append]

/-- The events a drain yields are exactly the retained log entries from the
reader's position on, for an open and for a closed channel alike. -/
theorem Broadcast.observedFrom_eq {α : Type} (b : Broadcast α) (pos : Nat) :
    b.observedFrom pos = b.log.drop (max pos b.oldest) := by
  unfold Broadcast.observedFrom
  rw [Broadcast.readAll_full]
  have hcomp : (RecvResult.eventOf ∘ RecvResult.event : α → Option α) = some := by
    funext v
    rfl
  by_cases h : pos < b.oldest <;> cases hc : b.closed <;>
    simp [List.filterMap_append, RecvResult.eventOf, h, hc, ← List.map_drop,
      List.filterMap_map, hcomp, List.filterMap_some]

theorem Broadcast.send_eq_of_receivers {α : Type} (b : Broadcast α) (v : α)
    (h : b.receivers ≠ 0) :
    b.send v = ({ b with log := b.log ++ [v] }, true) := by
  simp [Broadcast.send, h]

theorem Broadcast.sendAll_eq {α : Type} :
    ∀ (vs : List α) (b : Broadcast α), b.receivers ≠ 0 →
    b.sendAll vs = { b with log := b.log ++ vs }
  | [], b, _ => by simp [Broadcast.sendAll]
  | v :: vs, b, h => by
    have hstep : (b.send v).1 = { b with log := b.log ++ [v] } := by
      rw [Broadcast.send_eq_of_receivers b v h]
    have : Broadcast.sendAll b (v :: vs) =
        Broadcast.sendAll { b with log := b.log ++ [v] } vs := by
      simp [Broadcast.sendAll, List.foldl, hstep]
    rw [this, Broadcast.sendAll_eq vs { b with log := b.log ++ [v] } h]
    simp

/-- The broadcast-channel state after any sequence of handle operations has
an unchanged log: nothing in the library publishes. -/
theorem hubAfter_log_eq :
    ∀ (ops : List HandleOp) (b : Broadcast Json), (hubAfter b ops).log = b.log
  | [], _ => rfl
  | op :: ops, b => by
    have hstep : (hubEffect op b).log = b.log := by
      cases op <;> rfl
    have : hubAfter b (op :: ops) = hubAfter (hubEffect op b) ops := rfl
    rw [this, hubAfter_log_eq ops (hubEffect op b), hstep]

/- ### Lemmas about percent-encoding -/

theorem Char.toNat_lt_unicode_bound (c : Char) : c.toNat < 1114112 := by
  rcases c.valid with h | h
  · exact Nat.lt_trans h (by decide)
  · exact h.2

theorem utf8Bytes_lt_256 (c : Char) : ∀ b ∈ utf8Bytes c, b < 256 := by
  intro b hb
  have hc : c.toNat < 1114112 := Char.toNat_lt_unicode_bound c
  simp only [utf8Bytes] at hb
  by_cases h1 : c.toNat < 128
  · rw [if_pos h1] at hb
    simp at hb
    omega
  · rw [if_neg h1] at hb
    by_cases h2 : c.toNat < 2048
    · rw [if_pos h2] at hb
      simp at hb
      rcases hb with h | h <;> omega
    · rw [if_neg h2] at hb
      by_cases h3 : c.toNat < 65536
      · rw [if_pos h3] at hb
        simp at hb
        rcases hb with h | h | h <;> omega
      · rw [if_neg h3] at hb
        simp at hb
        rcases hb with h | h | h | h <;> omega

theorem hexDigit_unreserved (n : Nat) (h : n < 16) :
    isUnreservedByte (hexDigit n).toNat = true := by
  interval_cases n <;> decide

/-- Every character the encoder emits is an unreserved ASCII character or
the escape lead-in `%`: the encoded access key never contains a raw
reserved URL character. -/
theorem percentEncode_chars (s : String) :
    ∀ c ∈ (percentEncode s).data, isUnreservedByte c.toNat = true ∨ c = '%' := by
  intro c hc
  have hdata : (percentEncode s).data = (s.data.map percentEncodeChar).flatten := rfl
  rw [hdata, List.mem_flatten] at hc
  obtain ⟨l, hl, hcl⟩ := hc
  rw [List.mem_map] at hl
  obtain ⟨c2, _, rfl⟩ := hl
  simp only [percentEncodeChar] at hcl
  by_cases hu : isUnreservedByte c2.toNat
  · rw [if_pos hu] at hcl
    simp at hcl
    subst hcl
    exact Or.inl hu
  · rw [if_neg hu] at hcl
    rw [List.mem_flatten] at hcl
    obtain ⟨l2, hl2, hcl2⟩ := hcl
    rw [List.mem_map] at hl2
    obtain ⟨byt, hbyt, rfl⟩ := hl2
    have hb : byt < 256 := utf8Bytes_lt_256 c2 byt hbyt
    simp only [escapeByte] at hcl2
    simp at hcl2
    rcases hcl2 with rfl | rfl | rfl
    · exact Or.inr rfl
    · exact Or.inl (hexDigit_unreserved _ (by omega))
    · exact Or.inl (hexDigit_unreserved _ (by omega))

/- ### Concrete sample data -/

/-- The handle `WireKVSDatabase::new("db1", "secret key")` returns when the
handshake succeeds with a stream opened against the event URL. -/
def sampleDb : WireKVSDatabase :=
  { id := "db1", access_key := "secret key",
    ws := some ⟨setup_ws_url "db1" "secret key"⟩,
    is_connected := true, tx := Broadcast.channel Json 100 }

/- ### Claim theorems -/

/-- C7: the event endpoint URL built at session open is exactly
`wss://kvs.wireway.ch/events/{id}?accessKey={encoded-key}` with the id
inserted verbatim and the access key percent-encoded in the query
component: its encoding consists only of unreserved characters and `%`
escapes, spaces becoming `%20` and unreserved characters staying
verbatim. -/
theorem C7_event_url (id key : String) :
    setup_ws_url id key =
      "wss://kvs.wireway.ch/events/" ++ id ++ "?accessKey=" ++ percentEncode key
    ∧ (∀ c ∈ (percentEncode key).data, isUnreservedByte c.toNat = true ∨ c = '%')
    ∧ percentEncode "secret key" = "secret%20key"
    ∧ percentEncode "abcXYZ019-._~" = "abcXYZ019-._~" :=
  ⟨rfl, percentEncode_chars key, by decide, by decide⟩

/-- C7 witness: the concrete URL for id `db1` and access key `secret key`,
and the character-class fact instantiated at the character `s` of the
encoded key. -/
theorem C7_event_url_witness :
    setup_ws_url "db1" "secret key" =
      "wss://kvs.wireway.ch/events/db1?accessKey=secret%20key"
    ∧ (isUnreservedByte 's'.toNat = true ∨ 's' = '%') := by
  refine ⟨?_, (C7_event_url "db1" "secret key").2.1 's' (by decide)⟩
  rw [(C7_event_url "db1" "secret key").1, (C7_event_url "db1" "secret key").2.2.1]
  rfl

/-- C10: whenever `WireKVSDatabase::new` returns a handle, that handle has
an established stream stored in `ws` and `is_connected = true`; `new` never
returns an error value — its only other outcome is a panic during the
handshake, with message `Failed to connect`. -/
theorem C10_new_invariant (id key : String) (connect : String → HandshakeResult) :
    (∀ db, WireKVSDatabase.new id key connect = PanicOr.ok db →
        (∃ s, db.ws = some s ∧ connect (setup_ws_url id key) = HandshakeResult.ok s)
        ∧ db.is_connected = true)
    ∧ ((∃ db, WireKVSDatabase.new id key connect = PanicOr.ok db)
        ∨ WireKVSDatabase.new id key connect = PanicOr.panicked "Failed to connect") := by
  cases hc : connect (setup_ws_url id key) with
  | ok s =>
    have hnew : WireKVSDatabase.new id key connect = PanicOr.ok
        { id := id, access_key := key, ws := some s, is_connected := true,
          tx := Broadcast.channel Json 100 } := by
      simp [WireKVSDatabase.new, WireKVSDatabase.setup_websocket, hc]
    constructor
    · intro db hdb
      rw [hnew] at hdb
      injection hdb with h
      subst h
      exact ⟨⟨s, rfl, rfl⟩, rfl⟩
    · exact Or.inl ⟨_, hnew⟩
  | err r =>
    have hnew : WireKVSDatabase.new id key connect =
        PanicOr.panicked "Failed to connect" := by
      simp [WireKVSDatabase.new, WireKVSDatabase.setup_websocket, hc]
    constructor
    · intro db hdb
      rw [hnew] at hdb
      exact PanicOr.noConfusion hdb
    · exact Or.inr hnew

/-- C10 witness: at a succeeding handshake the constructor returns the
expected connected handle. -/
theorem C10_new_invariant_witness :
    ((∃ s, sampleDb.ws = some s ∧
        (fun u => HandshakeResult.ok (WsStream.mk u)) (setup_ws_url "db1" "secret key")
          = HandshakeResult.ok s)
      ∧ sampleDb.is_connected = true) :=
  (C10_new_invariant "db1" "secret key" (fun u => HandshakeResult.ok ⟨u⟩)).1
    sampleDb rfl

/-- C2 counterexample: at a failing handshake the constructor panics with
`Failed to connect`; it does not return a `ConnectError`-style error value
(the construction's outcome type has no error-return, only a handle or a
panic). -/
theorem C2_counterexample :
    WireKVSDatabase.new "db1" "secret key" (fun _ => HandshakeResult.err "dns failure")
      = PanicOr.panicked "Failed to connect" := rfl

/-- C2 amended: if the handshake at session open fails, Database Handle
construction fails as a whole by panicking with `Failed to connect` — not
by returning an error value — and no handle (in particular none with a dead
socket) is exposed to the caller. -/
theorem C2_handshake_failure (id key reason : String)
    (connect : String → HandshakeResult)
    (h : connect (setup_ws_url id key) = HandshakeResult.err reason) :
    WireKVSDatabase.new id key connect = PanicOr.panicked "Failed to connect"
    ∧ (∀ db, WireKVSDatabase.new id key connect ≠ PanicOr.ok db) := by
  have hnew : WireKVSDatabase.new id key connect =
      PanicOr.panicked "Failed to connect" := by
    simp [WireKVSDatabase.new, WireKVSDatabase.setup_websocket, h]
  refine ⟨hnew, fun db hdb => ?_⟩
  rw [hnew] at hdb
  exact PanicOr.noConfusion hdb

/-- C2 witness: the amended behavior at a concrete failing handshake. -/
theorem C2_handshake_failure_witness :
    WireKVSDatabase.new "db1" "k" (fun _ => HandshakeResult.err "tls")
      = PanicOr.panicked "Failed to connect" :=
  (C2_handshake_failure "db1" "k" "tls" (fun _ => HandshakeResult.err "tls") rfl).1

/-- C8: `create_database` issues `POST /database` with the client token in
the Authorization header and a JSON body of exactly the name and the four
visibility flags, where each flag takes its configured value and defaults
to `false` when absent from the configuration map. -/
theorem C8_create_database (token name : String) (config : List (String × Bool)) :
    (WireKVS.mk token).create_database_request name config =
      { method := "POST", url := API_BASE_URL ++ "/database",
        headers := [("Authorization", token)],
        body := some (Json.obj
          [("name", Json.str name),
           ("allowPublicWrites", Json.bool (configFlag config "allowPublicWrites")),
           ("allowPublicReads", Json.bool (configFlag config "allowPublicReads")),
           ("allowPublicModifications",
             Json.bool (configFlag config "allowPublicModifications")),
           ("allowSpecificPublicReads",
             Json.bool (configFlag config "allowSpecificPublicReads"))]) }
    ∧ (∀ k, config.lookup k = none → configFlag config k = false)
    ∧ (∀ k v, config.lookup k = some v → configFlag config k = v) := by
  refine ⟨rfl, ?_, ?_⟩
  · intro k hk
    simp [configFlag, hk]
  · intro k v hk
    simp [configFlag, hk]

/-- C8 witness: with only `allowPublicReads` configured, the body carries
that flag true and the other three flags false. -/
theorem C8_create_database_witness :
    ((WireKVS.mk "tok").create_database_request "Demo Database"
        [("allowPublicReads", true)]).body =
      some (Json.obj
        [("name", Json.str "Demo Database"),
         ("allowPublicWrites", Json.bool false),
         ("allowPublicReads", Json.bool true),
         ("allowPublicModifications", Json.bool false),
         ("allowSpecificPublicReads", Json.bool false)])
    ∧ configFlag [("allowPublicReads", true)] "allowPublicWrites" = false := by
  refine ⟨rfl, ?_⟩
  exact (C8_create_database "tok" "Demo Database" [("allowPublicReads", true)]).2.1
    "allowPublicWrites" rfl

/-- C6 counterexample: an HTTP error status in the response is not
surfaced — `set` against a 500 response returns success to its caller. -/
theorem C6_counterexample :
    WireKVSDatabase.set sampleDb "greeting" (Json.str "Hello")
        (fun _ => HttpOutcome.resp 500 (RespBody.malformed "Internal Server Error"))
      = Except.ok () := rfl

/-- C6 amended: a network-level failure of any CRUD call is surfaced as a
request-layer error to the caller of that call, with no local retry (each
call consumes its executor exactly once on its one request); an HTTP error
status alone is not surfaced — `set` and `delete` return success for every
response, and `get`/`get_all_entries` fail on a response only when its body
is not decodable JSON. -/
theorem C6_request_errors (db : WireKVSDatabase) (key : String) (v j : Json)
    (reason raw : String) (st : Nat) (b : RespBody) :
    db.set key v (fun _ => HttpOutcome.netErr reason)
      = Except.error (ReqError.network reason)
    ∧ db.delete key (fun _ => HttpOutcome.netErr reason)
      = Except.error (ReqError.network reason)
    ∧ db.get key (fun _ => HttpOutcome.netErr reason)
      = Except.error (ReqError.network reason)
    ∧ db.get_all_entries (fun _ => HttpOutcome.netErr reason)
      = Except.error (ReqError.network reason)
    ∧ db.set key v (fun _ => HttpOutcome.resp st b) = Except.ok ()
    ∧ db.delete key (fun _ => HttpOutcome.resp st b) = Except.ok ()
    ∧ db.get key (fun _ => HttpOutcome.resp st (RespBody.malformed raw))
      = Except.error (ReqError.decode raw)
    ∧ db.get key (fun _ => HttpOutcome.resp st (RespBody.json j)) = Except.ok j :=
  ⟨rfl, rfl, rfl, rfl, rfl, rfl, rfl, rfl⟩

/-- C9 counterexample: `set` is a CRUD method other than `delete` yet does
not return the decoded JSON response body: two responses with different
bodies produce the identical result, the bare success signal. -/
theorem C9_counterexample :
    WireKVSDatabase.set sampleDb "k" Json.null
        (fun _ => HttpOutcome.resp 200 (RespBody.json (Json.str "a")))
      = WireKVSDatabase.set sampleDb "k" Json.null
        (fun _ => HttpOutcome.resp 200 (RespBody.json (Json.str "b")))
    ∧ WireKVSDatabase.set sampleDb "k" Json.null
        (fun _ => HttpOutcome.resp 200 (RespBody.json (Json.str "a")))
      = Except.ok ()
    ∧ Json.str "a" ≠ Json.str "b" := by
  refine ⟨rfl, rfl, fun h => ?_⟩
  injection h with h2
  exact absurd h2 (by decide)

/-- C9 amended: on success `get` and `get_all_entries` return the decoded
JSON response body while `set` and `delete` return a raw success signal
with no body; every request carries the identity's access key in the
Authorization header against the `/database/{id}` REST paths. -/
theorem C9_crud_results (db : WireKVSDatabase) (key : String) (v j : Json)
    (st : Nat) (b : RespBody) :
    db.get key (fun _ => HttpOutcome.resp st (RespBody.json j)) = Except.ok j
    ∧ db.get_all_entries (fun _ => HttpOutcome.resp st (RespBody.json j)) = Except.ok j
    ∧ db.set key v (fun _ => HttpOutcome.resp st b) = Except.ok ()
    ∧ db.delete key (fun _ => HttpOutcome.resp st b) = Except.ok ()
    ∧ (db.get_request key).headers = [("Authorization", db.access_key)]
    ∧ db.get_all_entries_request.headers = [("Authorization", db.access_key)]
    ∧ (db.set_request key v).headers = [("Authorization", db.access_key)]
    ∧ (db.delete_request key).headers = [("Authorization", db.access_key)]
    ∧ (db.get_request key).url = API_BASE_URL ++ "/database/" ++ db.id ++ "/" ++ key
    ∧ db.get_all_entries_request.url = API_BASE_URL ++ "/database/" ++ db.id
    ∧ (db.set_request key v).url = API_BASE_URL ++ "/database/" ++ db.id ++ "/" ++ key
    ∧ (db.delete_request key).url = API_BASE_URL ++ "/database/" ++ db.id ++ "/" ++ key :=
  ⟨rfl, rfl, rfl, rfl, rfl, rfl, rfl, rfl, rfl, rfl, rfl, rfl⟩

/-- C1 (code defect): no code path of the library publishes into the
fan-out hub — the constructor stores the websocket stream and spawns no
receive task, and nothing ever calls the hub's send — so the hub log is
invariant under every sequence of handle operations including websocket
frame arrivals, and a subscriber attached to a fresh handle still receives
nothing (its receive stays suspended) after a frame arrives. -/
theorem C1_no_event_forwarding :
    (∀ (b : Broadcast Json) (ops : List HandleOp), (hubAfter b ops).log = b.log)
    ∧ ((hubAfter sampleDb.subscribe.1
          [HandleOp.wsFrameArrives (Json.obj
            [("type", Json.str "set"), ("key", Json.str "greeting"),
             ("value", Json.str "Hello")])]).recv sampleDb.subscribe.2).1
        = RecvResult.pending
    ∧ (hubAfter sampleDb.subscribe.1
          [HandleOp.wsFrameArrives (Json.obj
            [("type", Json.str "set"), ("key", Json.str "greeting"),
             ("value", Json.str "Hello")])]).observedFrom sampleDb.subscribe.2
        = [] :=
  ⟨fun b ops => hubAfter_log_eq ops b, rfl, rfl⟩

/-- C5: dropping the Database Handle closes the hub (its only sender is
gone) and releases the stored transport stream; any outstanding
subscription first drains the buffered events and then its next receive
reports closure — the drain ends in the closed signal, never in a
suspension. -/
theorem C5_drop_closes (db : WireKVSDatabase) (pos : Nat) :
    db.dropHandle.hub.observedFrom pos = db.tx.log.drop (max pos db.tx.oldest)
    ∧ (Broadcast.readAll (db.dropHandle.hub.log.length + 1)
          db.dropHandle.hub pos).getLast? = some RecvResult.closed
    ∧ (db.dropHandle.hub.recv db.dropHandle.hub.log.length).1 = RecvResult.closed
    ∧ db.dropHandle.releasedWs = db.ws := by
  refine ⟨Broadcast.observedFrom_eq _ pos, ?_, ?_, rfl⟩
  · rw [Broadcast.readAll_full]
    have hc : db.dropHandle.hub.closed = true := rfl
    rw [hc]
    simp [List.getLast?_concat, ← List.append_assoc]
  · rw [Broadcast.recv_closed_eq db.dropHandle.hub db.dropHandle.hub.log.length
      (Nat.le_refl _) rfl]


/-- 101 distinct events, more than the buffer capacity of the hub. -/
def manyEvents : List Json := (List.range 101).map (fun i => Json.num (Int.ofNat i))

theorem manyEvents_length : manyEvents.length = 101 := by
  rw [manyEvents, List.length_map, List.length_range]

/-- C3 counterexample: on the handle's capacity-100 hub a subscriber
attached before the first of 101 publishes does not observe the first
event: its first receive reports a lag of 1 and its drain yields only the
last 100 events. -/
theorem C3_counterexample :
    ((((Broadcast.channel Json 100).subscribe.1).sendAll manyEvents).recv 0).1
      = RecvResult.lagged 1
    ∧ (((Broadcast.channel Json 100).subscribe.1).sendAll
        manyEvents).observedFrom 0 = manyEvents.drop 1
    ∧ ((((Broadcast.channel Json 100).subscribe.1).sendAll
        manyEvents).observedFrom 0).length = 100
    ∧ manyEvents.length = 101 := by
  have hsend : ((Broadcast.channel Json 100).subscribe.1).sendAll manyEvents
      = { capacity := 100, log := manyEvents, receivers := 1, closed := false } := by
    rw [Broadcast.sendAll_eq manyEvents _ (Nat.succ_ne_zero 0)]
    rfl
  have hold : (((Broadcast.channel Json 100).subscribe.1).sendAll manyEvents).oldest
      = 1 := by
    rw [hsend]
    show manyEvents.length - 100 = 1
    rw [manyEvents_length]
  have hobs : (((Broadcast.channel Json 100).subscribe.1).sendAll
      manyEvents).observedFrom 0 = manyEvents.drop 1 := by
    rw [Broadcast.observedFrom_eq, hold, max_eq_right (Nat.zero_le 1), hsend]
  refine ⟨?_, hobs, ?_, manyEvents_length⟩
  · rw [Broadcast.recv_lagged_eq _ 0 (by rw [hold]; exact Nat.one_pos), hold]
  · rw [hobs, List.length_drop, manyEvents_length]

/-- C3 amended: a subscriber that attaches and then never accumulates more
unread events than the buffer capacity observes exactly the events
published after its attach time, in publish order, and no event from
before it attached; every drain of the hub is a suffix of the one total
publish log, so all subscribers observe the same relative order. -/
theorem C3_publish_order (b0 : Broadcast Json) (es : List Json)
    (hcap : es.length ≤ b0.capacity) :
    ((b0.subscribe.1).sendAll es).observedFrom b0.subscribe.2 = es
    ∧ (∀ q, List.IsSuffix (((b0.subscribe.1).sendAll es).observedFrom q)
        ((b0.subscribe.1).sendAll es).log)
    ∧ (∀ q r, q ≤ r →
        List.IsSuffix (((b0.subscribe.1).sendAll es).observedFrom r)
          (((b0.subscribe.1).sendAll es).observedFrom q)) := by
  have hsend : (b0.subscribe.1).sendAll es
      = { b0 with log := b0.log ++ es, receivers := b0.receivers + 1 } := by
    rw [Broadcast.sendAll_eq es _ (Nat.succ_ne_zero _)]
    rfl
  have hold : ((b0.subscribe.1).sendAll es).oldest ≤ b0.log.length := by
    rw [hsend]
    show (b0.log ++ es).length - b0.capacity ≤ b0.log.length
    rw [List.length_append]
    omega
  refine ⟨?_, ?_, ?_⟩
  · rw [Broadcast.observedFrom_eq]
    have hm : max b0.subscribe.2 ((b0.subscribe.1).sendAll es).oldest
        = b0.log.length := by
      have h2 : b0.subscribe.2 = b0.log.length := rfl
      rw [h2, max_eq_left hold]
    rw [hm, hsend]
    show (b0.log ++ es).drop b0.log.length = es
    exact List.drop_left _ _
  · intro q
    rw [Broadcast.observedFrom_eq]
    exact List.drop_suffix _ _
  · intro q r hqr
    rw [Broadcast.observedFrom_eq, Broadcast.observedFrom_eq]
    exact List.drop_suffix_drop_left _ (max_le_max hqr (Nat.le_refl _))

/-- C3 witness: two events published after the subscriber attached to a
fresh capacity-100 hub are observed exactly and in order. -/
theorem C3_publish_order_witness :
    (((Broadcast.channel Json 100).subscribe.1).sendAll
        [Json.str "a", Json.str "b"]).observedFrom
      (Broadcast.channel Json 100).subscribe.2
      = [Json.str "a", Json.str "b"] :=
  (C3_publish_order (Broadcast.channel Json 100)
    [Json.str "a", Json.str "b"] (by decide)).1

/-- C4: the hub the constructor creates has capacity exactly 100; a
subscriber that lets more than 100 publishes accumulate is told
`Lagged(n)` on its next receive, with `n` the number of dropped oldest
unread events; and publishing is one immediate step that never blocks —
it either appends the value or drops it when no receiver exists. -/
theorem C4_bounded_buffer (id key : String) (connect : String → HandshakeResult)
    (db : WireKVSDatabase) (es : List Json)
    (hdb : WireKVSDatabase.new id key connect = PanicOr.ok db)
    (hlen : 100 < es.length) :
    db.tx.capacity = 100
    ∧ (((db.subscribe.1).sendAll es).recv db.subscribe.2).1
        = RecvResult.lagged (es.length - 100)
    ∧ (∀ (b : Broadcast Json) (v : Json),
        (b.send v).1 = b ∨ (b.send v).1 = { b with log := b.log ++ [v] }) := by
  cases hc : connect (setup_ws_url id key) with
  | err r =>
    have hp : WireKVSDatabase.new id key connect =
        PanicOr.panicked "Failed to connect" := by
      simp [WireKVSDatabase.new, WireKVSDatabase.setup_websocket, hc]
    rw [hp] at hdb
    exact PanicOr.noConfusion hdb
  | ok s =>
    have hnew : WireKVSDatabase.new id key connect = PanicOr.ok
        { id := id, access_key := key, ws := some s, is_connected := true,
          tx := Broadcast.channel Json 100 } := by
      simp [WireKVSDatabase.new, WireKVSDatabase.setup_websocket, hc]
    rw [hnew] at hdb
    injection hdb with h
    subst h
    refine ⟨rfl, ?_, ?_⟩
    · show ((((Broadcast.channel Json 100).subscribe.1).sendAll es).recv 0).1
        = RecvResult.lagged (es.length - 100)
      have hsend : ((Broadcast.channel Json 100).subscribe.1).sendAll es
          = { capacity := 100, log := es, receivers := 1, closed := false } := by
        rw [Broadcast.sendAll_eq es _ (Nat.succ_ne_zero 0)]
        rfl
      have hold : (((Broadcast.channel Json 100).subscribe.1).sendAll es).oldest
          = es.length - 100 := by
        rw [hsend]
        rfl
      rw [Broadcast.recv_lagged_eq _ 0 (by rw [hold]; omega), hold, Nat.sub_zero]
    · intro b v
      by_cases h : b.receivers = 0
      · exact Or.inl (by simp [Broadcast.send, h])
      · exact Or.inr (by simp [Broadcast.send, h])

/-- C4 witness: 101 events published behind a subscriber of a fresh handle
produce a lag report of 1 on its next receive. -/
theorem C4_bounded_buffer_witness :
    sampleDb.tx.capacity = 100
    ∧ (((sampleDb.subscribe.1).sendAll manyEvents).recv sampleDb.subscribe.2).1
        = RecvResult.lagged (manyEvents.length - 100)
    ∧ (∀ (b : Broadcast Json) (v : Json),
        (b.send v).1 = b ∨ (b.send v).1 = { b with log := b.log ++ [v] }) :=
  C4_bounded_buffer "db1" "secret key" (fun u => HandshakeResult.ok ⟨u⟩) sampleDb
    manyEvents rfl (by rw [manyEvents_length]; omega)
